import Mathlib

/-
Verification of the Copilot usage panel extension's token-discovery and
usage-fetch pipeline, shallowly embedded from `extension.ts`.

JavaScript semantics are modelled explicitly where they matter:
  * `??` (nullish coalescing) on optional values is `Option.orElse`;
  * string truthiness (`if (token)`) is "not the empty string";
  * numbers appearing in quota percentages are modelled as rationals;
  * `Math.round(x)` is `⌊x + 1/2⌋`; `x.toFixed(0)` rounds half away from
    zero after splitting off the sign, as the ECMAScript spec prescribes.
-/

namespace CopilotUsage

-- ===========================================================================
-- API types (`QuotaSnapshot`, `QuotaSnapshots`, `CopilotUsageData`)
-- ===========================================================================

structure QuotaSnapshot where
  percent_remaining : Option Rat
  percentRemaining : Option Rat
deriving DecidableEq, Repr

structure QuotaSnapshots where
  premium_interactions : Option QuotaSnapshot
  premiumInteractions : Option QuotaSnapshot
  chat : Option QuotaSnapshot
deriving DecidableEq, Repr

structure CopilotUsageData where
  copilot_plan : Option String
  copilotPlan : Option String
  quota_snapshots : Option QuotaSnapshots
  quotaSnapshots : Option QuotaSnapshots
deriving DecidableEq, Repr

-- ===========================================================================
-- JavaScript-semantics helpers
-- ===========================================================================

/-- Truthiness of a `string | null` value: `null` and `""` are falsy. -/
def jsTruthy : Option String → Bool
  | none => false
  | some s => s != ""

/-- Falsiness of a `string | null` value (the `!plan` test). -/
def jsFalsyStr : Option String → Bool
  | none => true
  | some s => s == ""

/-- `Math.round`: round half toward positive infinity. -/
def jsRound (q : Rat) : Int := ⌊q + 1/2⌋

/-- `Number.prototype.toFixed(0)`: strip the sign, round half away from
zero (pick the larger of two equally near integers), re-attach the sign. -/
def jsToFixed0 (q : Rat) : Int :=
  if q < 0 then -(⌊-q + 1/2⌋) else ⌊q + 1/2⌋

/-- `String.prototype.trim`: strip leading and trailing whitespace,
modelled structurally over the character list. -/
def jsTrim (s : String) : String :=
  String.mk
    (((s.data.dropWhile Char.isWhitespace).reverse.dropWhile
        Char.isWhitespace).reverse)

/-- `String.prototype.toLowerCase` on the ASCII plan identifiers. -/
def jsToLower (s : String) : String :=
  String.mk (s.data.map Char.toLower)

/-- Property lookup `data[key]` on a decoded JSON object, modelled as an
association list in insertion order. -/
def lookupKey (key : String) : List (String × α) → Option α
  | [] => none
  | (k, v) :: rest => if k = key then some v else lookupKey key rest

-- ===========================================================================
-- Token extractors (`readToken_hostsJson`, `readToken_appsJson`,
-- `readToken_oauthJson`)
-- ===========================================================================

/-- One value of the hosts.json / apps.json credential objects: an object
that may carry an `oauth_token` field. -/
structure HostEntry where
  oauth_token : Option String
deriving DecidableEq, Repr

/-- `readToken_hostsJson`: `data?.["github.com"]?.oauth_token ?? null`. -/
def readToken_hostsJson (content : Option (List (String × HostEntry))) :
    Option String :=
  match content with
  | none => none
  | some data =>
    match lookupKey "github.com" data with
    | none => none
    | some entry => entry.oauth_token

/-- Loop body of `readToken_appsJson`: first truthy `oauth_token` over the
keys in insertion order. -/
def appsFirstToken : List (String × HostEntry) → Option String
  | [] => none
  | (_, e) :: rest =>
    match e.oauth_token with
    | some t => if t != "" then some t else appsFirstToken rest
    | none => appsFirstToken rest

/-- `readToken_appsJson`: iterate all top-level keys, return the first
truthy `oauth_token` field. -/
def readToken_appsJson (content : Option (List (String × HostEntry))) :
    Option String :=
  match content with
  | none => none
  | some data => appsFirstToken data

/-- One element of an oauth.json value array: may carry an `accessToken`. -/
structure OAuthEntry where
  accessToken : Option String
deriving DecidableEq, Repr

/-- Inner loop of `readToken_oauthJson`: first truthy `accessToken` of one
entry array. -/
def oauthEntryToken : List OAuthEntry → Option String
  | [] => none
  | e :: rest =>
    match e.accessToken with
    | some t => if t != "" then some t else oauthEntryToken rest
    | none => oauthEntryToken rest

/-- Outer loop of `readToken_oauthJson`: values that are not arrays are
skipped (`if (!Array.isArray(entries)) continue`). -/
def oauthFirstToken : List (String × Option (List OAuthEntry)) → Option String
  | [] => none
  | (_, none) :: rest => oauthFirstToken rest
  | (_, some entries) :: rest =>
    match oauthEntryToken entries with
    | some t => some t
    | none => oauthFirstToken rest

/-- `readToken_oauthJson`: iterate all top-level keys and their entry
arrays, first truthy `accessToken` wins. -/
def readToken_oauthJson
    (content : Option (List (String × Option (List OAuthEntry)))) :
    Option String :=
  match content with
  | none => none
  | some data => oauthFirstToken data

/-- `_runSubprocessToken`: `stdout?.trim() ?? null`, then `token || null`
(an empty-after-trim result becomes `null`). `none` input models a spawn
or communicate failure. -/
def runSubprocessToken : Option String → Option String
  | none => none
  | some stdout =>
    let t := jsTrim stdout
    if t = "" then none else some t

-- ===========================================================================
-- CHAT_LIMITED_PLANS
-- ===========================================================================

/-- Plans with a hard monthly cap on chat messages. -/
def CHAT_LIMITED_PLANS : List String := ["free", "copilot_free", "copilot-free"]

-- ===========================================================================
-- UI state (panel widgets and menu items mutated by the indicator)
-- ===========================================================================

/-- Dynamic parts of one usage row (`UsageRowResult`). -/
structure RowState where
  visible : Bool
  barWidth : Int
  barClass : String
  usedText : String
  percentText : String
deriving DecidableEq, Repr

/-- All widget state the indicator mutates. -/
structure UIState where
  menuState : Option String
  setupItemVisible : Bool
  setupSepVisible : Bool
  openSettingsVisible : Bool
  headerVisible : Bool
  footerVisible : Bool
  settingsVisible : Bool
  chatSepVisible : Bool
  setupHeading : String
  setupBody : String
  planLabel : String
  premiumRow : RowState
  chatRow : RowState
  updatedLabel : String
  dotVisible : Bool
  dotCritical : Bool
  dotHigh : Bool
deriving DecidableEq, Repr

/-- `_setMenuState`: toggle between the setup and usage item groups; a
no-op when the state is unchanged. The chat row is force-hidden only when
entering setup. -/
def setMenuState (state : String) (st : UIState) : UIState :=
  if st.menuState = some state then st else
  let isSetup := state == "setup"
  { st with
    menuState := some state
    setupItemVisible := isSetup
    setupSepVisible := isSetup
    openSettingsVisible := isSetup
    headerVisible := !isSetup
    premiumRow := { st.premiumRow with visible := !isSetup }
    footerVisible := !isSetup
    chatRow := if isSetup then { st.chatRow with visible := false } else st.chatRow
    chatSepVisible := if isSetup then false else st.chatSepVisible
    settingsVisible := true }

/-- `_updateChatVisibility`: the chat row and its separator are visible
exactly when the lower-cased plan is in `CHAT_LIMITED_PLANS`. -/
def updateChatVisibility (plan : Option String) (st : UIState) : UIState :=
  let isLimited :=
    match plan with
    | none => false
    | some p => CHAT_LIMITED_PLANS.contains (jsToLower p)
  { st with
    chatRow := { st.chatRow with visible := isLimited }
    chatSepVisible := isLimited }

/-- `_updateBar`: clamp the percentage to [0,100], set the fill width as a
fraction of the 244 px track, and install exactly one usage-band class. -/
def updateBar (pct : Rat) (row : RowState) : RowState :=
  let clampedPct := min 100 (max 0 pct)
  let width := jsRound (clampedPct / 100 * 244)
  let cls :=
    if clampedPct ≥ 90 then "usage-critical"
    else if clampedPct ≥ 70 then "usage-high"
    else if clampedPct ≥ 40 then "usage-medium"
    else "usage-low"
  { row with barWidth := width, barClass := cls }

/-- `_showSetupState`: switch to the setup group, install the given
heading and body, and show the high-level warning dot. -/
def showSetupState (heading body : String) (st : UIState) : UIState :=
  let st := setMenuState "setup" st
  { st with
    setupHeading := heading
    setupBody := body
    dotVisible := true
    dotCritical := false
    dotHigh := true }

/-- `_showNetworkError`: only the footer timestamp label and the warning
dot change; everything else keeps its last value. -/
def showNetworkError (detail : String) (st : UIState) : UIState :=
  { st with
    updatedLabel := "Error: " ++ detail
    dotVisible := true
    dotCritical := false
    dotHigh := true }

/-- Character class `\w` of the plan-formatting regex. -/
def isWordChar (c : Char) : Bool := c.isAlphanum || c == '_'

/-- `.replace(/\b\w/g, c => c.toUpperCase())`: upper-case every word
character whose predecessor is not a word character. -/
def capWordStarts : Bool → List Char → List Char
  | _, [] => []
  | prevWord, c :: cs =>
    let cw := isWordChar c
    (if cw && !prevWord then c.toUpper else c) :: capWordStarts cw cs

/-- `_formatPlan`: replace `_` and `-` by spaces, then capitalize word
starts. -/
def formatPlan (raw : String) : String :=
  let spaced := raw.data.map (fun c => if c = '_' ∨ c = '-' then ' ' else c)
  String.mk (capWordStarts false spaced)

-- ===========================================================================
-- Response-field access (`_updateUsageDisplay`, lines 653-659 and 682-685)
-- ===========================================================================

/-- `data.copilot_plan ?? data.copilotPlan ?? null`. -/
def planOf (d : CopilotUsageData) : Option String :=
  d.copilot_plan <|> d.copilotPlan

/-- `data.quota_snapshots ?? data.quotaSnapshots ?? null`. -/
def snapshotsOf (d : CopilotUsageData) : Option QuotaSnapshots :=
  d.quota_snapshots <|> d.quotaSnapshots

/-- `snapshots?.premium_interactions ?? snapshots?.premiumInteractions ?? null`. -/
def premiumOf (d : CopilotUsageData) : Option QuotaSnapshot :=
  ((snapshotsOf d).bind QuotaSnapshots.premium_interactions) <|>
    ((snapshotsOf d).bind QuotaSnapshots.premiumInteractions)

/-- `snapshots?.chat ?? null`. -/
def chatOf (d : CopilotUsageData) : Option QuotaSnapshot :=
  (snapshotsOf d).bind QuotaSnapshots.chat

/-- `snap?.percent_remaining ?? snap?.percentRemaining ?? null`. -/
def pctRemaining (snap : Option QuotaSnapshot) : Option Rat :=
  (snap.bind QuotaSnapshot.percent_remaining) <|>
    (snap.bind QuotaSnapshot.percentRemaining)

-- ===========================================================================
-- `_updateUsageDisplay`
-- ===========================================================================

/-- The empty-payload test `!plan && !premium && !chat`. -/
def usageGuard (data : CopilotUsageData) : Bool :=
  jsFalsyStr (planOf data) && (premiumOf data).isNone && (chatOf data).isNone

/-- The plan badge text: `plan ? this._formatPlan(plan) : ""`. -/
def planBadge (plan : Option String) : String :=
  if jsTruthy plan then formatPlan (plan.getD "") else ""

/-- One usage-row update of `_updateUsageDisplay` (the premium and chat
blocks are identical): a present remaining percentage r fills the bar
with 100 − r and writes the rounded used label and the remaining label;
an absent one resets the bar and shows "unlimited". -/
def renderRow (pr : Option Rat) (row : RowState) : RowState :=
  match pr with
  | some r =>
    let used := 100 - r
    { updateBar used row with
      usedText := toString (jsRound used) ++ "%"
      percentText := toString (jsToFixed0 r) ++ "% remaining" }
  | none =>
    { updateBar 0 row with
      usedText := "unlimited"
      percentText := "" }

/-- The warning-dot update at the end of `_updateUsageDisplay`: visible
only when the premium remaining percentage is present and at most 10,
with the critical class at 0 or below and the high class otherwise. -/
def renderDot (pr : Option Rat) (st : UIState) : UIState :=
  match pr with
  | some r =>
    if r ≤ 10 then
      if r ≤ 0 then { st with dotVisible := true, dotCritical := true }
      else { st with dotVisible := true, dotHigh := true }
    else { st with dotVisible := false, dotCritical := false, dotHigh := false }
  | none =>
    { st with dotVisible := false, dotCritical := false, dotHigh := false }

/-- `_updateUsageDisplay`: empty payloads (plan falsy, premium and chat
absent) produce the data-unavailable setup display; otherwise the usage
group is shown and both rows, the plan badge, the warning dot and the
timestamp are recomputed. `hh`/`mm` stand for the wall-clock reading. -/
def updateUsageDisplay (data : CopilotUsageData) (hh mm : String)
    (st : UIState) : UIState :=
  if usageGuard data then
    showSetupState "Copilot Data Unavailable"
      "API returned no usage data. Your token may lack Copilot permissions." st
  else
    let st := setMenuState "usage" st
    let st := { st with planLabel := planBadge (planOf data) }
    let st := updateChatVisibility (planOf data) st
    let st :=
      { st with premiumRow :=
          renderRow (pctRemaining (premiumOf data)) st.premiumRow }
    let st :=
      { st with chatRow := renderRow (pctRemaining (chatOf data)) st.chatRow }
    let st := renderDot (pctRemaining (premiumOf data)) st
    { st with updatedLabel := "Updated " ++ hh ++ ":" ++ mm }

-- ===========================================================================
-- `_fetchUsage`: request headers and response classification
-- ===========================================================================

/-- The fixed header set of the usage request, in append order. -/
def fetchHeaders (token : String) : List (String × String) :=
  [("Authorization", "token " ++ token),
   ("Accept", "application/json"),
   ("Editor-Version", "vscode/1.96.2"),
   ("Editor-Plugin-Version", "copilot-chat/0.26.7"),
   ("User-Agent", "GitHubCopilotChat/0.26.7"),
   ("X-Github-Api-Version", "2025-04-01")]

/-- Body of a completed HTTP exchange as seen by the callback: no data
(`bytes.get_data()` returned null), undecodable JSON (throws into the
catch), or a decoded `CopilotUsageData`. -/
inductive BodyContent
  | noData
  | malformed (msg : String)
  | parsed (d : CopilotUsageData)
deriving DecidableEq, Repr

/-- Input to the fetch callback: either a completed response with a status
code and body, or a transport-level failure thrown by
`send_and_read_finish` (DNS failure, connection refused, abort). -/
inductive HttpInput
  | response (status : Nat) (body : BodyContent)
  | transportError (msg : String)
deriving DecidableEq, Repr

/-- The externally observable UI effects a refresh cycle can apply. -/
inductive RefreshEffect
  | setupState (heading body : String)
  | networkError (detail : String)
  | usageUpdate (d : CopilotUsageData)
deriving DecidableEq, Repr

/-- Classification performed by the `_fetchUsage` callback: 401/403 before
the generic non-200 check, then the empty-body check, then JSON decoding;
decode and transport failures both land in `_showNetworkError`. -/
def handleResponse : HttpInput → RefreshEffect
  | .transportError msg => .networkError msg
  | .response status body =>
    if status = 401 ∨ status = 403 then
      .setupState "Token Invalid or Expired"
        "The stored token was rejected. Update it in Settings."
    else if status ≠ 200 then
      .networkError ("HTTP " ++ toString status)
    else
      match body with
      | .noData => .networkError "Empty response from API"
      | .malformed msg => .networkError msg
      | .parsed d => .usageUpdate d

/-- Application of a terminal refresh effect to the widget state. -/
def applyEffect (e : RefreshEffect) (hh mm : String) (st : UIState) : UIState :=
  match e with
  | .setupState heading body => showSetupState heading body st
  | .networkError detail => showNetworkError detail st
  | .usageUpdate d => updateUsageDisplay d hh mm st

-- ===========================================================================
-- `_resolveToken`: the probe chain
-- ===========================================================================

/-- The six token sources, in the fixed priority order of `_resolveToken`. -/
inductive TokenSource
  | ghSubprocess
  | ghHostsYml
  | hostsJson
  | appsJson
  | oauthJson
  | manualSetting
deriving DecidableEq, Repr

/-- The fixed probe priority order. -/
def probeOrder : List TokenSource :=
  [.ghSubprocess, .ghHostsYml, .hostsJson, .appsJson, .oauthJson, .manualSetting]

/-- The probe at a given position of the priority order. -/
def probeAt : Nat → TokenSource
  | 0 => .ghSubprocess
  | 1 => .ghHostsYml
  | 2 => .hostsJson
  | 3 => .appsJson
  | 4 => .oauthJson
  | _ => .manualSetting

/-- One refresh cycle's worth of probe results: the subprocess stdout (as
handed to `_runSubprocessToken`), the four `_readFileToken` results (each
`none` on a missing file, decode error, or extractor miss), and the
settings string. -/
structure ProbeEnv where
  ghStdout : Option String
  ghHostsYml : Option String
  hostsJson : Option String
  appsJson : Option String
  oauthJson : Option String
  manualSetting : String
deriving DecidableEq, Repr

/-- The value a given probe would yield if consulted. -/
def probeValue (env : ProbeEnv) : TokenSource → Option String
  | .ghSubprocess => runSubprocessToken env.ghStdout
  | .ghHostsYml => env.ghHostsYml
  | .hostsJson => env.hostsJson
  | .appsJson => env.appsJson
  | .oauthJson => env.oauthJson
  | .manualSetting => some (jsTrim env.manualSetting)

/-- Whether `this._destroyed` is already set when the continuation of the
`k`-th executed suspension point runs; `d = some n` means `destroy()` was
called while the `n`-th await of the cycle was in flight. -/
def destroyedAt (d : Option Nat) (k : Nat) : Bool :=
  match d with
  | none => false
  | some n => n ≤ k

/-- Outcome of one refresh cycle: the probes whose acquisition was
started, the token handed to `_fetchUsage` (if any), and every terminal UI
effect, each tagged with the `_destroyed` flag at the moment it ran. -/
structure RefreshRun where
  consulted : List TokenSource
  fetchToken : Option String
  effects : List (RefreshEffect × Bool)
deriving DecidableEq, Repr

/-- The fetch leg of a cycle: issue the request (its await is suspension
`k`) and apply the callback's effect. The callback does not consult the
`_destroyed` flag, so the effect fires even when it is set. -/
def runFetch (consulted : List TokenSource) (tok : String) (http : HttpInput)
    (d : Option Nat) (k : Nat) : RefreshRun :=
  ⟨consulted, some tok, [(handleResponse http, destroyedAt d k)]⟩

/-- `_refreshUsage` / `_resolveToken` end to end: the six probes in fixed
order, a `_destroyed` check after each file/subprocess await (returning
with no effect when set), short-circuit to `_fetchUsage` on the first
truthy token, and the no-credentials setup display when all six miss. -/
def runRefresh (env : ProbeEnv) (http : HttpInput) (d : Option Nat) :
    RefreshRun :=
  if destroyedAt d 0 then ⟨[.ghSubprocess], none, []⟩ else
  let t1 := runSubprocessToken env.ghStdout
  if jsTruthy t1 then
    runFetch [.ghSubprocess] (t1.getD "") http d 1
  else
  if destroyedAt d 1 then ⟨[.ghSubprocess, .ghHostsYml], none, []⟩ else
  let t2 := env.ghHostsYml
  if jsTruthy t2 then
    runFetch [.ghSubprocess, .ghHostsYml] (t2.getD "") http d 2
  else
  if destroyedAt d 2 then
    ⟨[.ghSubprocess, .ghHostsYml, .hostsJson], none, []⟩ else
  let t3 := env.hostsJson
  if jsTruthy t3 then
    runFetch [.ghSubprocess, .ghHostsYml, .hostsJson] (t3.getD "") http d 3
  else
  if destroyedAt d 3 then
    ⟨[.ghSubprocess, .ghHostsYml, .hostsJson, .appsJson], none, []⟩ else
  let t4 := env.appsJson
  if jsTruthy t4 then
    runFetch [.ghSubprocess, .ghHostsYml, .hostsJson, .appsJson]
      (t4.getD "") http d 4
  else
  if destroyedAt d 4 then
    ⟨[.ghSubprocess, .ghHostsYml, .hostsJson, .appsJson, .oauthJson],
      none, []⟩ else
  let t5 := env.oauthJson
  if jsTruthy t5 then
    runFetch [.ghSubprocess, .ghHostsYml, .hostsJson, .appsJson, .oauthJson]
      (t5.getD "") http d 5
  else
  let t6 := jsTrim env.manualSetting
  if t6 != "" then
    runFetch probeOrder t6 http d 5
  else
    ⟨probeOrder, none,
      [(.setupState "GitHub Token Required"
          "No credentials found. Open Settings to add your token.",
        destroyedAt d 4)]⟩

-- ===========================================================================
-- Initial widget state (`_init` / `_buildMenu`)
-- ===========================================================================

/-- A freshly built usage row: visible, empty labels, low-band bar. -/
def initialRow : RowState :=
  { visible := true, barWidth := 0, barClass := "usage-low",
    usedText := "", percentText := "" }

/-- Widget state at the end of `_buildMenu`: all items constructed, then
`_setMenuState("setup")` applied. -/
def initialState : UIState :=
  setMenuState "setup"
    { menuState := none
      setupItemVisible := true
      setupSepVisible := true
      openSettingsVisible := true
      headerVisible := true
      footerVisible := true
      settingsVisible := true
      chatSepVisible := true
      setupHeading := "GitHub Token Required"
      setupBody := "No credentials found. Open Settings to add your token."
      planLabel := ""
      premiumRow := initialRow
      chatRow := initialRow
      updatedLabel := "Not yet refreshed"
      dotVisible := false
      dotCritical := false
      dotHigh := false }

-- ===========================================================================
-- Concrete inputs used by witnesses and counterexamples
-- ===========================================================================

/-- Probe results where the subprocess yields a token at once. -/
def envC3 : ProbeEnv := ⟨some "tok", none, none, none, none, ""⟩

/-- Probe results where the first two probes miss and hosts.json yields a
token carrying surrounding whitespace; a later probe would also have
yielded one. -/
def envW1 : ProbeEnv := ⟨none, none, some " abc ", some "later", none, "manual"⟩

/-- Probe results where every probe misses: the subprocess prints only
whitespace and the manual setting is whitespace (empty after trimming). -/
def envW2 : ProbeEnv := ⟨some "   ", none, none, none, none, "  "⟩

/-- A 200-response body whose snapshots object carries no recognized
field: plan, premium and chat are all absent. -/
def dEmpty : CopilotUsageData := ⟨none, none, some ⟨none, none, none⟩, none⟩

/-- A response whose premium snapshot reports an out-of-range remaining
percentage of -50 (used would be 150). -/
def c6Data : CopilotUsageData :=
  ⟨some "pro", none, some ⟨some ⟨some (-50), none⟩, none, none⟩, none⟩

/-- A response whose premium snapshot reports an out-of-range remaining
percentage of 150 (used would be -50). -/
def dW6 : CopilotUsageData :=
  ⟨some "pro", none, some ⟨some ⟨some 150, none⟩, none, none⟩, none⟩

-- ===========================================================================
-- Helper lemmas
-- ===========================================================================

theorem setMenuState_menuState (s : String) (st : UIState) :
    (setMenuState s st).menuState = some s := by
  unfold setMenuState
  split
  · next h => exact h
  · rfl

theorem renderDot_premiumRow (pr : Option Rat) (st : UIState) :
    (renderDot pr st).premiumRow = st.premiumRow := by
  unfold renderDot
  cases pr
  · rfl
  · dsimp only
    split_ifs <;> rfl

theorem renderDot_chatRow (pr : Option Rat) (st : UIState) :
    (renderDot pr st).chatRow = st.chatRow := by
  unfold renderDot
  cases pr
  · rfl
  · dsimp only
    split_ifs <;> rfl

theorem updateUsageDisplay_guard_true (d : CopilotUsageData) (hh mm : String)
    (st : UIState) (hg : usageGuard d = true) :
    updateUsageDisplay d hh mm st =
      showSetupState "Copilot Data Unavailable"
        "API returned no usage data. Your token may lack Copilot permissions."
        st := by
  unfold updateUsageDisplay
  rw [hg]
  rfl

theorem updateUsageDisplay_premiumRow_eq (d : CopilotUsageData)
    (hh mm : String) (st : UIState) (hg : usageGuard d = false) :
    ∃ row : RowState, (updateUsageDisplay d hh mm st).premiumRow =
      renderRow (pctRemaining (premiumOf d)) row := by
  refine ⟨(updateChatVisibility (planOf d)
    { setMenuState "usage" st with
      planLabel := planBadge (planOf d) }).premiumRow, ?_⟩
  unfold updateUsageDisplay
  rw [hg, if_neg Bool.false_ne_true]
  dsimp only
  rw [renderDot_premiumRow]

theorem updateUsageDisplay_chatRow_eq (d : CopilotUsageData)
    (hh mm : String) (st : UIState) (hg : usageGuard d = false) :
    ∃ row : RowState, (updateUsageDisplay d hh mm st).chatRow =
      renderRow (pctRemaining (chatOf d)) row := by
  refine ⟨({ updateChatVisibility (planOf d)
      { setMenuState "usage" st with
        planLabel := planBadge (planOf d) } with
    premiumRow := renderRow (pctRemaining (premiumOf d))
      (updateChatVisibility (planOf d)
        { setMenuState "usage" st with
          planLabel := planBadge (planOf d) }).premiumRow }).chatRow, ?_⟩
  unfold updateUsageDisplay
  rw [hg, if_neg Bool.false_ne_true]
  dsimp only
  rw [renderDot_chatRow]

theorem renderRow_some_fields (r : Rat) (row : RowState) :
    (renderRow (some r) row).barWidth =
      jsRound (min 100 (max 0 (100 - r)) / 100 * 244) ∧
    (renderRow (some r) row).barClass =
      (if min 100 (max 0 (100 - r)) ≥ 90 then "usage-critical"
        else if min 100 (max 0 (100 - r)) ≥ 70 then "usage-high"
        else if min 100 (max 0 (100 - r)) ≥ 40 then "usage-medium"
        else "usage-low") ∧
    (renderRow (some r) row).usedText = toString (jsRound (100 - r)) ++ "%" ∧
    (renderRow (some r) row).percentText =
      toString (jsToFixed0 r) ++ "% remaining" :=
  ⟨rfl, rfl, rfl, rfl⟩

theorem renderRow_none_fields (row : RowState) :
    (renderRow none row).usedText = "unlimited" ∧
    (renderRow none row).percentText = "" ∧
    (renderRow none row).barWidth = 0 := by
  refine ⟨rfl, rfl, ?_⟩
  show jsRound (min 100 (max 0 0) / 100 * 244) = 0
  norm_num [jsRound]

-- ===========================================================================
-- Claims
-- ===========================================================================

/-- Claim C1: for every configuration of probe results, the resolver tries
the probes sequentially in the fixed priority order and invokes the usage
fetch with the token of the first probe that yields a non-empty token,
never consulting any later probe. -/
theorem c1_resolver_first_truthy_probe (env : ProbeEnv) (http : HttpInput)
    (i : Nat) (hi : i < 6)
    (ht : jsTruthy (probeValue env (probeAt i)) = true)
    (hf : ∀ j, j < i → jsTruthy (probeValue env (probeAt j)) = false) :
    runRefresh env http none =
      ⟨probeOrder.take (i + 1),
        some ((probeValue env (probeAt i)).getD ""),
        [(handleResponse http, false)]⟩ := by
  interval_cases i
  · simp only [probeAt, probeValue] at ht
    simp [runRefresh, runFetch, destroyedAt, ht, probeOrder, probeAt,
      probeValue]
  · have h0 := hf 0 (by norm_num)
    simp only [probeAt, probeValue] at ht h0
    simp [runRefresh, runFetch, destroyedAt, ht, h0, probeOrder, probeAt,
      probeValue]
  · have h0 := hf 0 (by norm_num)
    have h1 := hf 1 (by norm_num)
    simp only [probeAt, probeValue] at ht h0 h1
    simp [runRefresh, runFetch, destroyedAt, ht, h0, h1, probeOrder, probeAt,
      probeValue]
  · have h0 := hf 0 (by norm_num)
    have h1 := hf 1 (by norm_num)
    have h2 := hf 2 (by norm_num)
    simp only [probeAt, probeValue] at ht h0 h1 h2
    simp [runRefresh, runFetch, destroyedAt, ht, h0, h1, h2, probeOrder,
      probeAt, probeValue]
  · have h0 := hf 0 (by norm_num)
    have h1 := hf 1 (by norm_num)
    have h2 := hf 2 (by norm_num)
    have h3 := hf 3 (by norm_num)
    simp only [probeAt, probeValue] at ht h0 h1 h2 h3
    simp [runRefresh, runFetch, destroyedAt, ht, h0, h1, h2, h3, probeOrder,
      probeAt, probeValue]
  · have h0 := hf 0 (by norm_num)
    have h1 := hf 1 (by norm_num)
    have h2 := hf 2 (by norm_num)
    have h3 := hf 3 (by norm_num)
    have h4 := hf 4 (by norm_num)
    simp only [probeAt, probeValue] at ht h0 h1 h2 h3 h4
    simp only [jsTruthy] at ht
    simp [runRefresh, runFetch, destroyedAt, ht, h0, h1, h2, h3, h4,
      probeOrder, probeAt, probeValue]

theorem c1_witness :
    runRefresh envW1 (.response 200 .noData) none =
      ⟨[.ghSubprocess, .ghHostsYml, .hostsJson], some " abc ",
        [(.networkError "Empty response from API", false)]⟩ :=
  c1_resolver_first_truthy_probe envW1 (.response 200 .noData) 2
    (by norm_num) (by rfl) (by intro j hj; interval_cases j <;> rfl)

/-- Claim C2: if every probe yields "not found" (including the manual
settings token being empty after trimming), the resolver produces the
"no credentials" setup display with its fixed diagnostic text, and no
usage fetch is invoked in that refresh cycle. -/
theorem c2_all_probes_missing_no_fetch (env : ProbeEnv) (http : HttpInput)
    (hf : ∀ j, j < 6 → jsTruthy (probeValue env (probeAt j)) = false) :
    runRefresh env http none =
      ⟨probeOrder, none,
        [(.setupState "GitHub Token Required"
            "No credentials found. Open Settings to add your token.",
          false)]⟩ := by
  have h0 := hf 0 (by norm_num)
  have h1 := hf 1 (by norm_num)
  have h2 := hf 2 (by norm_num)
  have h3 := hf 3 (by norm_num)
  have h4 := hf 4 (by norm_num)
  have h5 := hf 5 (by norm_num)
  simp only [probeAt, probeValue, jsTruthy] at h0 h1 h2 h3 h4 h5
  simp [runRefresh, destroyedAt, h0, h1, h2, h3, h4, h5, probeOrder, jsTruthy]

theorem c2_witness :
    runRefresh envW2 (.response 200 .noData) none =
      ⟨probeOrder, none,
        [(.setupState "GitHub Token Required"
            "No credentials found. Open Settings to add your token.",
          false)]⟩ :=
  c2_all_probes_missing_no_fetch envW2 (.response 200 .noData)
    (by intro j hj; interval_cases j <;> decide)

/-- Claim C3: the claim requires that no UI mutation occur after teardown.
The code violates it: when `destroy()` is called while the HTTP fetch is
in flight (suspension index 1 after the subprocess probe succeeded), the
fetch callback runs without consulting the `_destroyed` flag and applies
`_showNetworkError` — a UI mutation tagged here with the destroyed flag
set. -/
theorem c3_fetch_callback_mutates_after_teardown :
    (runRefresh envC3 (.transportError "Operation was cancelled")
        (some 1)).effects =
      [(.networkError "Operation was cancelled", true)] ∧
    ((runRefresh envC3 (.transportError "Operation was cancelled")
        (some 1)).effects.any fun pr => pr.2) = true :=
  ⟨by decide, by decide⟩

/-- Claim C4: both JSON key-naming conventions are recognized for the
plan, the snapshots container, the premium snapshot and the
remaining-percentage field; when both spellings are present the
snake_case value wins. -/
theorem c4_dual_naming_snake_preferred (p q : String)
    (s1 s2 : QuotaSnapshots) (a b : QuotaSnapshot)
    (c : Option QuotaSnapshot) (r1 r2 : Rat) :
    planOf ⟨some p, none, none, none⟩ = some p ∧
    planOf ⟨none, some q, none, none⟩ = some q ∧
    planOf ⟨some p, some q, none, none⟩ = some p ∧
    snapshotsOf ⟨none, none, some s1, none⟩ = some s1 ∧
    snapshotsOf ⟨none, none, none, some s2⟩ = some s2 ∧
    snapshotsOf ⟨none, none, some s1, some s2⟩ = some s1 ∧
    premiumOf ⟨none, none, some ⟨some a, none, c⟩, none⟩ = some a ∧
    premiumOf ⟨none, none, some ⟨none, some b, c⟩, none⟩ = some b ∧
    premiumOf ⟨none, none, some ⟨some a, some b, c⟩, none⟩ = some a ∧
    pctRemaining (some ⟨some r1, none⟩) = some r1 ∧
    pctRemaining (some ⟨none, some r2⟩) = some r2 ∧
    pctRemaining (some ⟨some r1, some r2⟩) = some r1 :=
  ⟨rfl, rfl, rfl, rfl, rfl, rfl, rfl, rfl, rfl, rfl, rfl, rfl⟩

/-- Claim C5: a 200-response body in which the plan, premium snapshot and
chat snapshot are all absent yields the data-unavailable setup display,
never a usage display. -/
theorem c5_empty_payload_setup_display (d : CopilotUsageData)
    (hh mm : String) (st : UIState)
    (hplan : planOf d = none) (hprem : premiumOf d = none)
    (hchat : chatOf d = none) :
    updateUsageDisplay d hh mm st =
      showSetupState "Copilot Data Unavailable"
        "API returned no usage data. Your token may lack Copilot permissions."
        st ∧
    (updateUsageDisplay d hh mm st).menuState = some "setup" ∧
    (updateUsageDisplay d hh mm st).menuState ≠ some "usage" := by
  have hg : usageGuard d = true := by
    simp [usageGuard, hplan, hprem, hchat, jsFalsyStr]
  have h1 := updateUsageDisplay_guard_true d hh mm st hg
  refine ⟨h1, ?_, ?_⟩
  · rw [h1]
    simp [showSetupState, setMenuState_menuState]
  · rw [h1]
    simp [showSetupState, setMenuState_menuState]

theorem c5_witness :
    updateUsageDisplay dEmpty "09" "30" initialState =
      showSetupState "Copilot Data Unavailable"
        "API returned no usage data. Your token may lack Copilot permissions."
        initialState ∧
    (updateUsageDisplay dEmpty "09" "30" initialState).menuState =
      some "setup" ∧
    (updateUsageDisplay dEmpty "09" "30" initialState).menuState ≠
      some "usage" :=
  c5_empty_payload_setup_display dEmpty "09" "30" initialState rfl rfl rfl

/-- Claim C6 counterexample: for the premium snapshot reporting remaining
percentage -50, the claim predicts a displayed used-percentage of
100 (the clamp of 150), but the used label shows the unclamped "150%";
only the bar width is clamped (to the full 244 px track). -/
theorem c6_counterexample :
    pctRemaining (premiumOf c6Data) = some (-50) ∧
    (updateUsageDisplay c6Data "12" "00" initialState).premiumRow.usedText =
      "150%" ∧
    (updateUsageDisplay c6Data "12" "00" initialState).premiumRow.usedText ≠
      "100%" ∧
    (updateUsageDisplay c6Data "12" "00" initialState).premiumRow.barWidth =
      244 := by
  have hpr : pctRemaining (premiumOf c6Data) = some (-50) := by decide
  obtain ⟨row, hrow⟩ :=
    updateUsageDisplay_premiumRow_eq c6Data "12" "00" initialState (by decide)
  rw [hpr] at hrow
  have hf := renderRow_some_fields (-50) row
  refine ⟨hpr, ?_, ?_, ?_⟩
  · rw [hrow, hf.2.2.1]
    norm_num [jsRound]
    decide
  · rw [hrow, hf.2.2.1]
    norm_num [jsRound]
    decide
  · rw [hrow, hf.1]
    norm_num [jsRound]

/-- Claim C6 (amended): the progress bar displays 100 − r clamped to
[0,100] (width and band class), while the text labels display the
rounded unclamped value 100 − r and the raw remaining percentage; when
the remaining percentage is absent the row shows "unlimited", never 0%
or 100%. -/
theorem c6_amended_clamp_bar_only (d : CopilotUsageData) (hh mm : String)
    (st : UIState) :
    (∀ r : Rat, pctRemaining (premiumOf d) = some r →
      ((updateUsageDisplay d hh mm st).premiumRow.barWidth =
          jsRound (min 100 (max 0 (100 - r)) / 100 * 244) ∧
        (updateUsageDisplay d hh mm st).premiumRow.barClass =
          (if min 100 (max 0 (100 - r)) ≥ 90 then "usage-critical"
            else if min 100 (max 0 (100 - r)) ≥ 70 then "usage-high"
            else if min 100 (max 0 (100 - r)) ≥ 40 then "usage-medium"
            else "usage-low") ∧
        (updateUsageDisplay d hh mm st).premiumRow.usedText =
          toString (jsRound (100 - r)) ++ "%" ∧
        (updateUsageDisplay d hh mm st).premiumRow.percentText =
          toString (jsToFixed0 r) ++ "% remaining")) ∧
    (∀ r : Rat, pctRemaining (chatOf d) = some r →
      ((updateUsageDisplay d hh mm st).chatRow.barWidth =
          jsRound (min 100 (max 0 (100 - r)) / 100 * 244) ∧
        (updateUsageDisplay d hh mm st).chatRow.usedText =
          toString (jsRound (100 - r)) ++ "%" ∧
        (updateUsageDisplay d hh mm st).chatRow.percentText =
          toString (jsToFixed0 r) ++ "% remaining")) ∧
    (pctRemaining (premiumOf d) = none → jsFalsyStr (planOf d) = false →
      ((updateUsageDisplay d hh mm st).premiumRow.usedText = "unlimited" ∧
        (updateUsageDisplay d hh mm st).premiumRow.usedText ≠ "0%" ∧
        (updateUsageDisplay d hh mm st).premiumRow.usedText ≠ "100%" ∧
        (updateUsageDisplay d hh mm st).premiumRow.percentText = "" ∧
        (updateUsageDisplay d hh mm st).premiumRow.barWidth = 0)) := by
  refine ⟨?_, ?_, ?_⟩
  · intro r hr
    have hnone : (premiumOf d).isNone = false := by
      cases hp : premiumOf d
      · rw [hp] at hr
        simp [pctRemaining] at hr
      · rfl
    have hg : usageGuard d = false := by simp [usageGuard, hnone]
    obtain ⟨row, hrow⟩ := updateUsageDisplay_premiumRow_eq d hh mm st hg
    rw [hr] at hrow
    rw [hrow]
    exact renderRow_some_fields r row
  · intro r hr
    have hnone : (chatOf d).isNone = false := by
      cases hp : chatOf d
      · rw [hp] at hr
        simp [pctRemaining] at hr
      · rfl
    have hg : usageGuard d = false := by simp [usageGuard, hnone]
    obtain ⟨row, hrow⟩ := updateUsageDisplay_chatRow_eq d hh mm st hg
    rw [hr] at hrow
    rw [hrow]
    have h := renderRow_some_fields r row
    exact ⟨h.1, h.2.2.1, h.2.2.2⟩
  · intro hr hplan
    have hg : usageGuard d = false := by simp [usageGuard, hplan]
    obtain ⟨row, hrow⟩ := updateUsageDisplay_premiumRow_eq d hh mm st hg
    rw [hr] at hrow
    rw [hrow]
    have h := renderRow_none_fields row
    refine ⟨h.1, ?_, ?_, h.2.1, h.2.2⟩
    · rw [h.1]
      decide
    · rw [h.1]
      decide

theorem c6_amended_witness :
    pctRemaining (premiumOf dW6) = some 150 ∧
    (updateUsageDisplay dW6 "12" "00" initialState).premiumRow.barWidth = 0 ∧
    (updateUsageDisplay dW6 "12" "00" initialState).premiumRow.usedText =
      "-50%" := by
  have h := (c6_amended_clamp_bar_only dW6 "12" "00" initialState).1 150
    (by decide)
  refine ⟨by decide, ?_, ?_⟩
  · rw [h.1]
    norm_num [jsRound]
  · rw [h.2.2.1]
    norm_num [jsRound]
    decide

/-- Claim C7: status 401 or 403 yields the token-rejected setup display
regardless of the body, with heading and body text distinct from the
no-credentials setup text. -/
theorem c7_auth_rejected_distinct_setup (status : Nat) (body : BodyContent)
    (st : UIState) (hh mm : String) (h : status = 401 ∨ status = 403) :
    handleResponse (.response status body) =
      .setupState "Token Invalid or Expired"
        "The stored token was rejected. Update it in Settings." ∧
    (applyEffect (handleResponse (.response status body)) hh mm
        st).setupHeading = "Token Invalid or Expired" ∧
    (applyEffect (handleResponse (.response status body)) hh mm
        st).setupBody =
      "The stored token was rejected. Update it in Settings." ∧
    (applyEffect (handleResponse (.response status body)) hh mm
        st).menuState = some "setup" ∧
    "Token Invalid or Expired" ≠ "GitHub Token Required" ∧
    "The stored token was rejected. Update it in Settings." ≠
      "No credentials found. Open Settings to add your token." := by
  have he : handleResponse (.response status body) =
      .setupState "Token Invalid or Expired"
        "The stored token was rejected. Update it in Settings." := by
    rcases h with rfl | rfl <;> simp [handleResponse]
  refine ⟨he, ?_, ?_, ?_, by decide, by decide⟩
  · rw [he]
    rfl
  · rw [he]
    rfl
  · rw [he]
    simp [applyEffect, showSetupState, setMenuState_menuState]

theorem c7_witness :
    handleResponse (.response 401 (.parsed dEmpty)) =
      .setupState "Token Invalid or Expired"
        "The stored token was rejected. Update it in Settings." ∧
    (applyEffect (handleResponse (.response 401 (.parsed dEmpty))) "10" "00"
        initialState).setupHeading = "Token Invalid or Expired" ∧
    (applyEffect (handleResponse (.response 401 (.parsed dEmpty))) "10" "00"
        initialState).setupBody =
      "The stored token was rejected. Update it in Settings." ∧
    (applyEffect (handleResponse (.response 401 (.parsed dEmpty))) "10" "00"
        initialState).menuState = some "setup" ∧
    "Token Invalid or Expired" ≠ "GitHub Token Required" ∧
    "The stored token was rejected. Update it in Settings." ≠
      "No credentials found. Open Settings to add your token." :=
  c7_auth_rejected_distinct_setup 401 (.parsed dEmpty) initialState "10" "00"
    (Or.inl rfl)

/-- Claim C8: chat-quota visibility is a function of the plan identifier
alone: the free-tier spellings mark the row visible, paid plans hidden;
matching lower-cases the plan and the set carries both separator
spellings. -/
theorem c8_chat_visibility_plan_mapping (st : UIState) :
    (updateChatVisibility (some "Free") st).chatRow.visible = true ∧
    (updateChatVisibility (some "free") st).chatRow.visible = true ∧
    (updateChatVisibility (some "copilot-free") st).chatRow.visible = true ∧
    (updateChatVisibility (some "copilot_free") st).chatRow.visible = true ∧
    (updateChatVisibility (some "FREE") st).chatRow.visible = true ∧
    (updateChatVisibility (some "Copilot-Free") st).chatRow.visible = true ∧
    (updateChatVisibility (some "COPILOT_FREE") st).chatRow.visible = true ∧
    (updateChatVisibility (some "pro") st).chatRow.visible = false ∧
    (updateChatVisibility (some "business") st).chatRow.visible = false ∧
    (updateChatVisibility (some "enterprise") st).chatRow.visible = false ∧
    (updateChatVisibility (some "Pro") st).chatRow.visible = false ∧
    (updateChatVisibility none st).chatRow.visible = false ∧
    (∀ p : String, (updateChatVisibility (some p) st).chatRow.visible =
      CHAT_LIMITED_PLANS.contains (jsToLower p)) ∧
    (∀ p : Option String, (updateChatVisibility p st).chatSepVisible =
      (updateChatVisibility p st).chatRow.visible) := by
  refine ⟨rfl, rfl, rfl, rfl, rfl, rfl, rfl, rfl, rfl, rfl, rfl, rfl,
    fun p => rfl, fun p => ?_⟩
  cases p <;> rfl

/-- Claim C9: a non-auth non-200 status or a transport failure classifies
as a network error, and applying the network-error display changes only
the footer label and warning dot: menu state, plan label, both rows and
the setup/usage group visibilities keep their last values. -/
theorem c9_network_error_preserves_usage (status : Nat) (body : BodyContent)
    (msg detail : String) (st : UIState)
    (h200 : status ≠ 200) (h401 : status ≠ 401) (h403 : status ≠ 403) :
    handleResponse (.response status body) =
      .networkError ("HTTP " ++ toString status) ∧
    handleResponse (.transportError msg) = .networkError msg ∧
    (showNetworkError detail st).menuState = st.menuState ∧
    (showNetworkError detail st).planLabel = st.planLabel ∧
    (showNetworkError detail st).premiumRow = st.premiumRow ∧
    (showNetworkError detail st).chatRow = st.chatRow ∧
    (showNetworkError detail st).chatSepVisible = st.chatSepVisible ∧
    (showNetworkError detail st).setupItemVisible = st.setupItemVisible ∧
    (showNetworkError detail st).headerVisible = st.headerVisible ∧
    (showNetworkError detail st).footerVisible = st.footerVisible ∧
    (showNetworkError detail st).updatedLabel = "Error: " ++ detail := by
  have hor : ¬(status = 401 ∨ status = 403) := by
    rintro (rfl | rfl)
    · exact h401 rfl
    · exact h403 rfl
  refine ⟨?_, rfl, rfl, rfl, rfl, rfl, rfl, rfl, rfl, rfl, rfl⟩
  simp [handleResponse, hor, h200]

theorem c9_witness :
    handleResponse (.response 500 .noData) =
      .networkError ("HTTP " ++ toString 500) ∧
    handleResponse (.transportError "timeout") = .networkError "timeout" ∧
    (showNetworkError "HTTP 500" initialState).menuState =
      initialState.menuState ∧
    (showNetworkError "HTTP 500" initialState).planLabel =
      initialState.planLabel ∧
    (showNetworkError "HTTP 500" initialState).premiumRow =
      initialState.premiumRow ∧
    (showNetworkError "HTTP 500" initialState).chatRow =
      initialState.chatRow ∧
    (showNetworkError "HTTP 500" initialState).chatSepVisible =
      initialState.chatSepVisible ∧
    (showNetworkError "HTTP 500" initialState).setupItemVisible =
      initialState.setupItemVisible ∧
    (showNetworkError "HTTP 500" initialState).headerVisible =
      initialState.headerVisible ∧
    (showNetworkError "HTTP 500" initialState).footerVisible =
      initialState.footerVisible ∧
    (showNetworkError "HTTP 500" initialState).updatedLabel =
      "Error: " ++ "HTTP 500" :=
  c9_network_error_preserves_usage 500 .noData "timeout" "HTTP 500"
    initialState (by decide) (by decide) (by decide)

/-- Claim C10: the hosts.json, apps.json and oauth.json extractors return
the token field verbatim (no trimming); any truthy string, whitespace
included, is carried into the fetch and its Authorization header; only
the subprocess probe and the manual settings source trim, treating
empty-after-trim as not found. -/
theorem c10_file_extractors_verbatim (t s : String) (e : HostEntry)
    (http : HttpInput) (ht : t ≠ "") :
    readToken_hostsJson (some [("github.com", e)]) = e.oauth_token ∧
    readToken_appsJson (some [("app1", ⟨some t⟩)]) = some t ∧
    readToken_oauthJson
      (some [("https://github.com/login/oauth", some [⟨some t⟩])]) =
      some t ∧
    (runRefresh
        ⟨none, none, readToken_hostsJson (some [("github.com", ⟨some t⟩)]),
          none, none, ""⟩ http none).fetchToken = some t ∧
    (fetchHeaders t).head? = some ("Authorization", "token " ++ t) ∧
    runSubprocessToken (some s) =
      (if jsTrim s = "" then none else some (jsTrim s)) ∧
    probeValue ⟨none, none, none, none, none, s⟩ .manualSetting =
      some (jsTrim s) := by
  have hhosts : readToken_hostsJson (some [("github.com", ⟨some t⟩)]) =
      some t := by
    simp [readToken_hostsJson, lookupKey]
  refine ⟨?_, ?_, ?_, ?_, rfl, rfl, rfl⟩
  · simp [readToken_hostsJson, lookupKey]
  · simp [readToken_appsJson, appsFirstToken, ht]
  · simp [readToken_oauthJson, oauthFirstToken, oauthEntryToken, ht]
  · rw [hhosts]
    simp [runRefresh, runFetch, destroyedAt, runSubprocessToken, jsTruthy, ht]

theorem c10_witness :
    readToken_hostsJson (some [("github.com", ⟨some " padded "⟩)]) =
      some " padded " ∧
    readToken_appsJson (some [("app1", ⟨some " padded "⟩)]) =
      some " padded " ∧
    readToken_oauthJson
      (some [("https://github.com/login/oauth", some [⟨some " padded "⟩])]) =
      some " padded " ∧
    (runRefresh
        ⟨none, none,
          readToken_hostsJson (some [("github.com", ⟨some " padded "⟩)]),
          none, none, ""⟩ (.response 200 .noData) none).fetchToken =
      some " padded " ∧
    (fetchHeaders " padded ").head? =
      some ("Authorization", "token " ++ " padded ") ∧
    runSubprocessToken (some "  raw  ") =
      (if jsTrim "  raw  " = "" then none else some (jsTrim "  raw  ")) ∧
    probeValue ⟨none, none, none, none, none, "  raw  "⟩ .manualSetting =
      some (jsTrim "  raw  ") := by
  have h := c10_file_extractors_verbatim " padded " "  raw  "
    ⟨some " padded "⟩ (.response 200 .noData) (by decide)
  exact h

end CopilotUsage
